import Mathlib

/-! Shallow embedding of the Telegram group-keeper bot (src/bot.py):
the SQLite registry tables and their statements, banned-word loading,
the moderation message handler, the broadcast conversation handlers
(entry, type selection, message/group selection, confirmation) and the
background broadcast dispatcher job. Storage statements carry explicit
success flags (a failing statement raises, which the handlers catch at
the granularity of their `try` blocks); transport sends are modelled as
succeeding. -/

namespace Bot

/-- Python str.lower, per-character lowercasing (ASCII behaviour). -/
def pyLower (s : String) : String := String.mk (s.data.map Char.toLower)

/-- Python str.strip: leading and trailing whitespace removed. -/
def pyStrip (s : String) : String :=
  String.mk (((s.data.dropWhile Char.isWhitespace).reverse.dropWhile Char.isWhitespace).reverse)

/-- Python `needle in hay` on strings: contiguous substring test. -/
def strContains (hay needle : String) : Bool :=
  (List.range (hay.data.length + 1)).any
    (fun i => (hay.data.drop i).take needle.data.length == needle.data)

/-- bot.py load_banned_words: the lines of banned_words.txt with blank and
whitespace-only lines dropped, each kept line stripped and lower-cased. -/
def load_banned_words (file_lines : List String) : List String :=
  (file_lines.filter (fun w => !(pyStrip w == ""))).map (fun w => pyLower (pyStrip w))

/-- Python truthiness of an optional string (None and "" are falsy). -/
def textTruthy : Option String → Bool
  | none => false
  | some s => !(s == "")

/-- The banned-word rule condition of message_handler:
`any(word in text.lower() for word in banned_words)`. -/
def bannedHit (banned : List String) (text : String) : Bool :=
  banned.any (fun w => strContains (pyLower text) w)

/-- The SQLite database of bot.py: groups, users (group memberships),
bot_users (opted-in direct users), deleted_messages (moderation log) and
failed_deliveries. Append-only tables keep insertion order. -/
structure DB where
  groups : List (Int × String) := []
  users : List (Int × Int × Option String) := []
  bot_users : List (Int × Option String × Option String × Option String) := []
  deleted_messages : List (Int × Int × String × String) := []
  failed_deliveries : List (Int × String × String) := []
deriving DecidableEq

/-- The statement `INSERT OR IGNORE INTO groups (group_id, group_name)`:
a no-op when a row with this group_id already exists. -/
def upsertGroup (db : DB) (gid : Int) (name : String) : DB :=
  if db.groups.any (fun r => r.1 == gid) then db
  else { db with groups := db.groups ++ [(gid, name)] }

/-- The statement `INSERT OR REPLACE INTO users (user_id, group_id,
username)`: replace-on-conflict on the composite key (user_id, group_id). -/
def upsertMembership (db : DB) (uid gid : Int) (uname : Option String) : DB :=
  { db with users :=
      (db.users.filter (fun r => !(r.1 == uid && r.2.1 == gid))) ++ [(uid, gid, uname)] }

/-- The statement `INSERT OR REPLACE INTO bot_users ...` performed by the
/start handler (bot.py start): records an opted-in direct user, keyed by
user_id. -/
def start_record (db : DB) (uid : Int)
    (username first last : Option String) : DB :=
  { db with bot_users :=
      (db.bot_users.filter (fun r => !(r.1 == uid))) ++ [(uid, username, first, last)] }

/-- bot.py log_event: append a row to deleted_messages. -/
def log_event (db : DB) (gid uid : Int) (content reason : String) : DB :=
  { db with deleted_messages := db.deleted_messages ++ [(gid, uid, content, reason)] }

/-- An inbound Telegram message as message_handler reads it: chat kind and
identity, sender identity, optional text, and the types of the detected
message entities. -/
structure Msg where
  chatType : String := "group"
  chatId : Int := 0
  chatTitle : String := ""
  userId : Int := 0
  firstName : String := ""
  username : Option String := none
  text : Option String := none
  entityTypes : List String := []
deriving DecidableEq

/-- Observable effects of one run of message_handler: the database after
the run, whether each of the two registry upserts was executed, how many
times message.delete() was attempted, the warning texts sent to the chat,
how many warning auto-deletions were scheduled, the admin reports sent,
and which moderation rules acted (in order). -/
structure Effects where
  db : DB
  groupUpsertRan : Bool := false
  membershipUpsertRan : Bool := false
  deleteAttempts : Nat := 0
  warnings : List String := []
  warnDeleteScheduled : Nat := 0
  reports : List String := []
  firedReasons : List String := []
deriving DecidableEq

/-- Warning text of the URL rule (bot.py, message_handler). -/
def urlWarning (first : String) : String :=
  "⚠️ Hi " ++ first ++ ", URLs are not allowed in this group. Please refrain from sharing links. Thank you! 😊"

/-- Warning text of the banned-word rule (bot.py, message_handler). -/
def bannedWarning (first : String) : String :=
  "⚠️ Hi " ++ first ++ ", the message contained a banned word. Please be mindful of the group rules. Thank you! 😊"

/-- Python `user.username or user.first_name`. -/
def userLabel (username : Option String) (first : String) : String :=
  match username with
  | some u => if u == "" then first else u
  | none => first

/-- Admin report of the URL rule. -/
def urlAdminReport (label title content : String) : String :=
  "🚫 Deleted URL from " ++ label ++ " in " ++ title ++ ":\nContent: " ++ content

/-- Admin report of the banned-word rule. -/
def bannedAdminReport (label title content : String) : String :=
  "🚫 Deleted banned word from " ++ label ++ " in " ++ title ++ ":\nContent: " ++ content

/-- The banned-word section of message_handler (bot.py lines 342-381).
Reached either after the URL section allowed the message, or after the URL
section raised mid-branch (its exception is caught at section level and
execution continues here). `bLogOk` is the success flag of the log_event
statement of this section; its failure is caught by the section's own
`except`, after which the handler ends, so only the log row and the admin
report (which follows it) are lost. -/
def bannedSection (adminId : Int) (banned : List String) (bLogOk : Bool)
    (e : Effects) (m : Msg) : Effects :=
  if textTruthy m.text && bannedHit banned (m.text.getD "") && !(m.userId == adminId) then
    let t := m.text.getD ""
    let e1 : Effects := { e with
      deleteAttempts := e.deleteAttempts + 1,
      warnings := e.warnings ++ [bannedWarning m.firstName],
      warnDeleteScheduled := e.warnDeleteScheduled + 1,
      firedReasons := e.firedReasons ++ ["BannedWord"] }
    if bLogOk then
      { e1 with
        db := log_event e1.db m.chatId m.userId t "Banned word",
        reports := e1.reports ++ [bannedAdminReport (userLabel m.username m.firstName) m.chatTitle t] }
    else e1
  else e

/-- The URL section of message_handler (bot.py lines 301-340) followed by
the banned-word section. Acts for a non-admin sender with a URL entity:
delete, warn, schedule the warning deletion, then log_event (success flag
`uLogOk`) and the admin report and the early return; a failing log
statement is caught at section level, loses the report and falls through
to the banned-word section. -/
def moderationSection (adminId : Int) (banned : List String) (uLogOk bLogOk : Bool)
    (base : Effects) (m : Msg) : Effects :=
  if m.entityTypes.any (fun t => t == "url") && !(m.userId == adminId) then
    let content :=
      match m.text with
      | some s => if s == "" then "URL in media" else s
      | none => "URL in media"
    let e1 : Effects := { base with
      deleteAttempts := base.deleteAttempts + 1,
      warnings := base.warnings ++ [urlWarning m.firstName],
      warnDeleteScheduled := base.warnDeleteScheduled + 1,
      firedReasons := base.firedReasons ++ ["URL"] }
    if uLogOk then
      { e1 with
        db := log_event e1.db m.chatId m.userId content "URL",
        reports := e1.reports ++
          [urlAdminReport (userLabel m.username m.firstName) m.chatTitle content] }
    else
      bannedSection adminId banned bLogOk e1 m
  else
    bannedSection adminId banned bLogOk base m

/-- message_handler (bot.py lines 272-381). Private chats and senders with
an active broadcast conversation are skipped. The group upsert and the
membership upsert share one `try` block, so a failing group statement
(`gOk = false`) skips the membership statement; either failure is caught
there and moderation still runs. -/
def message_handler (adminId : Int) (banned : List String) (bcastActive : Bool)
    (gOk mOk uLogOk bLogOk : Bool) (db : DB) (m : Msg) : Effects :=
  if m.chatType == "private" then { db := db }
  else if bcastActive then { db := db }
  else
    let db1 := if gOk then upsertGroup db m.chatId m.chatTitle else db
    let db2 := if gOk && mOk then upsertMembership db1 m.userId m.chatId m.username else db1
    moderationSection adminId banned uLogOk bLogOk
      { db := db2, groupUpsertRan := true, membershipUpsertRan := gOk } m

/-- States of the broadcast ConversationHandler plus END. -/
inductive ConvState where
  | BTYPE | BMESSAGE | BCONFIRM | END
deriving DecidableEq

/-- A Telegram message object as the broadcast conversation stores and
serializes it: optional text, photo file ids (largest last), optional
document, optional caption. -/
structure PyMessage where
  text : Option String := none
  photoFileIds : List String := []
  documentFileId : Option String := none
  documentFileName : String := ""
  caption : Option String := none
deriving DecidableEq

/-- context.user_data keys used by the broadcast conversation. -/
structure UserData where
  broadcast_type : Option String := none
  broadcast_message : Option PyMessage := none
  groups_list : Option (List (Int × String)) := none
  selected_group : Option (Int × String) := none
deriving DecidableEq

/-- The dict built by _serialize_message_for_broadcast. -/
inductive MsgData where
  | textD (t : String)
  | photoD (fileId : String) (caption : Option String)
  | docD (fileId : String) (caption : Option String)
deriving DecidableEq

/-- bot.py _serialize_message_for_broadcast. -/
def serialize_message (m : PyMessage) : MsgData :=
  if textTruthy m.text then .textD (m.text.getD "")
  else if !(m.photoFileIds == []) then .photoD (m.photoFileIds.getLastD "") m.caption
  else
    match m.documentFileId with
    | some fid => .docD fid m.caption
    | none =>
      .textD (match m.caption with
              | some c => if c == "" then " " else c
              | none => " ")

/-- Result of a conversation handler step: the returned conversation
state, the user_data afterwards, and the replies sent. -/
structure StepResult where
  state : ConvState
  ud : UserData
  replies : List String := []
deriving DecidableEq

/-- SELECT COUNT(DISTINCT user_id) FROM users. -/
def distinctAux (seen : List Int) : List Int → List Int
  | [] => []
  | x :: xs => if seen.contains x then distinctAux seen xs else x :: distinctAux (x :: seen) xs

/-- The distinct values of a column, first occurrence kept. -/
def sqlDistinct (l : List Int) : List Int := distinctAux [] l

/-- Distinct user count of the users (membership) table. -/
def distinctUserCount (db : DB) : Nat := (sqlDistinct (db.users.map (fun r => r.1))).length

/-- bot.py broadcast (the /broadcast entry point): a non-admin invoker is
refused and the conversation does not start; user_data is untouched. -/
def broadcast_entry (adminId userId : Int) (ud : UserData) : StepResult :=
  if userId == adminId then
    { state := .BTYPE, ud := ud,
      replies := ["📢 **Broadcast Options:**\n\n1. 👤 All Bot Users - Send to all users who interacted with bot\n2. 👥 All Groups - Send to all groups where bot is added\n3. 🎯 Specific Group - Choose specific group from list\n\nPlease reply with number (1, 2, or 3):"] }
  else
    { state := .END, ud := ud, replies := ["❌ This command is for admin only."] }

/-- bot.py broadcast_type: interpret the audience choice "1"/"2"/"3";
choice "3" snapshots the current group list into user_data; any other
input re-prompts in the same state. -/
def broadcast_type_handler (db : DB) (ud : UserData) (text : String) : StepResult :=
  let choice := pyStrip text
  if choice == "1" then
    { state := .BMESSAGE, ud := { ud with broadcast_type := some "all_users" },
      replies := ["✅ Selected: All Bot Users (" ++ toString (distinctUserCount db) ++ " users)"] }
  else if choice == "2" then
    { state := .BMESSAGE, ud := { ud with broadcast_type := some "all_groups" },
      replies := ["✅ Selected: All Groups (" ++ toString db.groups.length ++ " groups)"] }
  else if choice == "3" then
    let ud1 : UserData := { ud with broadcast_type := some "specific_group" }
    if db.groups == [] then
      { state := .END, ud := ud1, replies := ["❌ No groups found in database."] }
    else
      { state := .BMESSAGE, ud := { ud1 with groups_list := some db.groups },
        replies := ["📋 **Available Groups** — reply with group number to choose the target group:"] }
  else
    { state := .BTYPE, ud := ud, replies := ["❌ Invalid choice. Please enter 1, 2, or 3:"] }

/-- Decimal value of a nonempty all-digit character list. -/
def digitsVal (l : List Char) : Option Nat :=
  if !(l == []) && l.all (fun c => c.isDigit) then
    some (l.foldl (fun a c => a * 10 + (c.toNat - 48)) 0)
  else none

/-- Python int(text.strip()) wrapped in try/except ValueError: an optional
sign followed by decimal digits. -/
def parsePyInt (s : String) : Option Int :=
  match (pyStrip s).data with
  | '-' :: rest => (digitsVal rest).map (fun n => -(n : Int))
  | '+' :: rest => (digitsVal rest).map (fun n => (n : Int))
  | cs => (digitsVal cs).map (fun n => (n : Int))

/-- Deterministic preview of the payload (bot.py broadcast_message). -/
def messagePreview (m : PyMessage) : String :=
  if textTruthy m.text then
    let t := m.text.getD ""
    "Text: " ++ String.mk (t.data.take 200) ++ (if 200 < t.data.length then "..." else "")
  else if !(m.photoFileIds == []) then
    if textTruthy m.caption then "Photo with caption" else "Photo"
  else if m.documentFileId.isSome then "Document: " ++ m.documentFileName
  else "Media message"

/-- bot.py broadcast_message: in the specific-group state with no group
selected yet, the input is a 1-based index into the snapshotted
groups_list (non-numeric or out-of-range input re-prompts in the same
state); otherwise the inbound message is stored verbatim as the payload
and the handler moves to the confirmation state. -/
def broadcast_message (db : DB) (ud : UserData) (m : PyMessage) : StepResult :=
  match ud.broadcast_type with
  | none =>
    { state := .END, ud := ud,
      replies := ["❌ No broadcast type selected. Please run /broadcast again."] }
  | some btype =>
    if btype == "specific_group" && ud.selected_group.isNone then
      let text := m.text.getD ""
      match parsePyInt text with
      | none =>
        { state := .BMESSAGE, ud := ud,
          replies := ["❌ Please reply with a valid number for the group selection:"] }
      | some n =>
        let groups := ud.groups_list.getD []
        if 0 ≤ n - 1 ∧ n - 1 < (groups.length : Int) then
          let sg := groups.getD (n - 1).toNat (0, "")
          { state := .BMESSAGE,
            ud := { ud with selected_group := some sg },
            replies := ["✅ Selected group: " ++ sg.2 ++ "\n\n📝 Now send the message you want to broadcast to this group (text/photo/document/etc):"] }
        else
          { state := .BMESSAGE, ud := ud,
            replies := ["❌ Invalid group number. Please enter a valid number from the list:"] }
    else
      let ud2 : UserData := { ud with broadcast_message := some m }
      let target_info :=
        if btype == "all_users" then
          "All Bot Users (" ++ toString (distinctUserCount db) ++ " users)"
        else if btype == "all_groups" then
          "All Groups (" ++ toString db.groups.length ++ " groups)"
        else
          let sg := ud.selected_group.getD (0, "")
          "Specific Group: " ++ sg.2 ++ " (id:" ++ toString sg.1 ++ ")"
      { state := .BCONFIRM, ud := ud2,
        replies := ["📢 **Broadcast Confirmation**\n\n🎯 **Target:** " ++ target_info
          ++ "\n📝 **Message Type:** " ++ messagePreview m
          ++ "\n\nType \u0027confirm\u0027 to send or \u0027cancel\u0027 to abort:"] }

/-- The confirmation test of broadcast_confirm: the input text is present
and equals "confirm" case-insensitively. -/
def isConfirm : Option String → Bool
  | none => false
  | some t => pyLower t == "confirm"

/-- The cleanup loop of broadcast_confirm: pop the four conversation keys. -/
def clearBroadcastData (ud : UserData) : UserData :=
  { ud with broadcast_type := none, broadcast_message := none,
            groups_list := none, selected_group := none }

/-- Result of the confirmation step: conversation state, user_data,
dispatcher jobs enqueued on the scheduler (audience kind, serialized
payload, optional selected group id, report recipient), replies. -/
structure ConfirmResult where
  state : ConvState
  ud : UserData
  jobs : List (String × MsgData × Option Int × Int) := []
  replies : List String := []
deriving DecidableEq

/-- bot.py broadcast_confirm. Any input other than case-insensitive
"confirm" cancels: the four conversation keys are popped and nothing is
enqueued. On "confirm" with the session data present, one dispatcher job
is enqueued (`schedOk = true`) and the keys are popped; when
scheduler.add_job raises (`schedOk = false`) a failure notice is sent and
the handler returns END without popping the keys. -/
def broadcast_confirm (schedOk : Bool) (userId : Int) (ud : UserData)
    (text : Option String) : ConfirmResult :=
  if isConfirm text then
    match ud.broadcast_type, ud.broadcast_message with
    | some btype, some pm =>
      if schedOk then
        { state := .END, ud := clearBroadcastData ud,
          jobs := [(btype, serialize_message pm, ud.selected_group.map (fun g => g.1), userId)],
          replies := ["✅ Broadcast queued and will run in background. You will receive a report when it\u0027s finished."] }
      else
        { state := .END, ud := ud, jobs := [],
          replies := ["❌ Failed to queue broadcast. Try again later."] }
    | _, _ =>
      { state := .END, ud := ud, jobs := [],
        replies := ["❌ Missing broadcast info. Please try again."] }
  else
    { state := .END, ud := clearBroadcastData ud, jobs := [],
      replies := ["❌ Broadcast canceled."] }

/-- Classified outcome of one delivery attempt (bot.py run_broadcast_job's
except clauses). -/
inductive Outcome where
  | success
  | unauthorized
  | timedOut
  | telegramErr (name : String)
  | otherErr (name : String)
deriving DecidableEq

/-- Accumulator of the per-target loop of run_broadcast_job. `aborted`
records that an in-loop failed_deliveries INSERT raised a storage error:
that exception escapes the per-target try and ends the loop, leaving the
remaining targets unattempted. -/
structure RunAcc where
  success : Nat := 0
  fail : Nat := 0
  attempts : List Int := []
  failedTargets : List String := []
  fdRows : List (Int × String × String) := []
  aborted : Bool := false
deriving DecidableEq

/-- The per-target loop of run_broadcast_job: one send attempt per target,
counting successes and failures, recording a label per failure and a
failed_deliveries row per non-success outcome. `oc` gives each target's
transport outcome; `insOk t` is the success flag of the failed_deliveries
INSERT executed for target t (only reached on a non-success outcome, and
only after the failure counter and label were recorded). Its failure sits
in an except clause with no inner protection, so it aborts the remaining
loop: no row is written for t and the rest of the targets are never
attempted. -/
def runTargets (oc : Int → Outcome) (insOk : Int → Bool) : List Int → RunAcc
  | [] => {}
  | t :: ts =>
    match oc t with
    | .success =>
      let r := runTargets oc insOk ts
      { r with success := r.success + 1, attempts := t :: r.attempts }
    | .unauthorized =>
      if insOk t then
        let r := runTargets oc insOk ts
        { r with
          fail := r.fail + 1,
          attempts := t :: r.attempts,
          failedTargets := (toString t ++ " (blocked/unauthorized)") :: r.failedTargets,
          fdRows := (t, toString t, "Unauthorized") :: r.fdRows }
      else
        { fail := 1, attempts := [t],
          failedTargets := [toString t ++ " (blocked/unauthorized)"], aborted := true }
    | .timedOut =>
      if insOk t then
        let r := runTargets oc insOk ts
        { r with
          fail := r.fail + 1,
          attempts := t :: r.attempts,
          failedTargets := (toString t ++ " (timeout)") :: r.failedTargets,
          fdRows := (t, toString t, "TimedOut") :: r.fdRows }
      else
        { fail := 1, attempts := [t],
          failedTargets := [toString t ++ " (timeout)"], aborted := true }
    | .telegramErr n =>
      if insOk t then
        let r := runTargets oc insOk ts
        { r with
          fail := r.fail + 1,
          attempts := t :: r.attempts,
          failedTargets := (toString t ++ " (" ++ n ++ ")") :: r.failedTargets,
          fdRows := (t, toString t, n) :: r.fdRows }
      else
        { fail := 1, attempts := [t],
          failedTargets := [toString t ++ " (" ++ n ++ ")"], aborted := true }
    | .otherErr n =>
      if insOk t then
        let r := runTargets oc insOk ts
        { r with
          fail := r.fail + 1,
          attempts := t :: r.attempts,
          failedTargets := (toString t ++ " (" ++ n ++ ")") :: r.failedTargets,
          fdRows := (t, toString t, n) :: r.fdRows }
      else
        { fail := 1, attempts := [t],
          failedTargets := [toString t ++ " (" ++ n ++ ")"], aborted := true }

/-- Target resolution of run_broadcast_job, performed at execution time:
all_users reads SELECT DISTINCT user_id FROM users (the group-membership
table), all_groups reads SELECT group_id FROM groups, and otherwise the
single selected group id is used (`[selected_group_id] if
selected_group_id else []`, so a falsy id yields no target). -/
def resolveTargets (db : DB) (btype : String) (sgid : Option Int) : List Int :=
  if btype == "all_users" then sqlDistinct (db.users.map (fun r => r.1))
  else if btype == "all_groups" then db.groups.map (fun r => r.1)
  else
    match sgid with
    | some g => if g == 0 then [] else [g]
    | none => []

/-- The summary report of run_broadcast_job. -/
structure BroadcastReport where
  success : Nat
  fail : Nat
  total : Nat
  failedTargets : List String
  successRate : ℚ
  failSample : List String
deriving DecidableEq

/-- One execution of the dispatcher job: the send attempts made (in
order), the summary report — `none` when the job-level except fired and a
crash report was sent in its place — and the database afterwards. -/
structure JobRun where
  attempts : List Int
  report : Option BroadcastReport
  db : DB
deriving DecidableEq

/-- bot.py run_broadcast_job: resolve the targets (`selOk` is the success
flag of the audience SELECT, executed only for the all_users and
all_groups audiences; its failure hits the job-level except before any
send), attempt each target, and compute the summary (success rate
success/total*100, 0 when there are no targets; sample of the first 50
failure labels). A storage error in an in-loop failed_deliveries INSERT
(`insOk`) likewise escapes to the job-level except: the remaining targets
are not attempted and the crash report replaces the summary (`report :=
none`); rows of earlier iterations persist. -/
def run_broadcast_job (db : DB) (btype : String) (sgid : Option Int)
    (oc : Int → Outcome) (selOk : Bool) (insOk : Int → Bool) : JobRun :=
  if (btype == "all_users" || btype == "all_groups") && !selOk then
    { attempts := [], report := none, db := db }
  else
    let targets := resolveTargets db btype sgid
    let total := targets.length
    let r := runTargets oc insOk targets
    { attempts := r.attempts,
      report :=
        if r.aborted then none
        else some
          { success := r.success, fail := r.fail, total := total,
            failedTargets := r.failedTargets,
            successRate := if total == 0 then 0 else (r.success : ℚ) / (total : ℚ) * 100,
            failSample := r.failedTargets.take 50 },
      db := { db with failed_deliveries := db.failed_deliveries ++ r.fdRows } }

/-- Repeated observation of the same group: fold upsertGroup over a list
of observed names. -/
def insertMany (db : DB) (gid : Int) : List String → DB
  | [] => db
  | n :: ns => insertMany (upsertGroup db gid n) gid ns

/-! ### Helper lemmas -/

theorem upsertGroup_users (db : DB) (g : Int) (n : String) :
    (upsertGroup db g n).users = db.users := by
  unfold upsertGroup; split <;> rfl

theorem upsertGroup_deleted (db : DB) (g : Int) (n : String) :
    (upsertGroup db g n).deleted_messages = db.deleted_messages := by
  unfold upsertGroup; split <;> rfl

theorem upsertMembership_groups (db : DB) (u g : Int) (un : Option String) :
    (upsertMembership db u g un).groups = db.groups := rfl

theorem upsertMembership_deleted (db : DB) (u g : Int) (un : Option String) :
    (upsertMembership db u g un).deleted_messages = db.deleted_messages := rfl

theorem log_event_users (db : DB) (g u : Int) (c r : String) :
    (log_event db g u c r).users = db.users := rfl

theorem log_event_groups (db : DB) (g u : Int) (c r : String) :
    (log_event db g u c r).groups = db.groups := rfl

theorem upsertGroup_stable (db : DB) (gid : Int) (nm : String)
    (h : db.groups.any (fun r => r.1 == gid) = true) :
    upsertGroup db gid nm = db := by
  simp [upsertGroup, h]

theorem upsertGroup_any_self (db : DB) (gid : Int) (nm : String) :
    (upsertGroup db gid nm).groups.any (fun r => r.1 == gid) = true := by
  unfold upsertGroup
  split
  · assumption
  · simp

theorem insertMany_stable (gid : Int) (ns : List String) :
    ∀ db : DB, db.groups.any (fun r => r.1 == gid) = true → insertMany db gid ns = db := by
  induction ns with
  | nil => intro db _; rfl
  | cons n ns ih =>
    intro db h
    show insertMany (upsertGroup db gid n) gid ns = db
    rw [upsertGroup_stable db gid n h]
    exact ih db h

/-- When no in-loop failed_deliveries INSERT raises, the per-target loop
runs to completion: every target is attempted exactly once, in order, and
success + fail counts every target. -/
theorem runTargets_ok (oc : Int → Outcome) (insOk : Int → Bool)
    (hins : ∀ t, insOk t = true) (ts : List Int) :
    (runTargets oc insOk ts).attempts = ts ∧
    (runTargets oc insOk ts).aborted = false ∧
    (runTargets oc insOk ts).success + (runTargets oc insOk ts).fail = ts.length := by
  induction ts with
  | nil => exact ⟨rfl, rfl, rfl⟩
  | cons t ts ih =>
    obtain ⟨ha, hb, hc⟩ := ih
    refine ⟨?_, ?_, ?_⟩ <;> cases h : oc t <;>
      simp [runTargets, h, hins t, ha, hb] <;> omega

/-- Whatever the outcome and storage flags, a single-target loop attempts
exactly its one target. -/
theorem runTargets_single (oc : Int → Outcome) (insOk : Int → Bool) (t : Int) :
    (runTargets oc insOk [t]).attempts = [t] := by
  cases h : oc t <;> cases hi : insOk t <;> simp [runTargets, h, hi]

/-! ### Claim C5 -/

/-- Claim C5: inserting a group with the same group_id any number of
times (via upsertGroup) leaves exactly one row for that group_id, with
the name recorded by the first insertion, and further upserts for that
id are no-ops. -/
theorem C5_upsertGroup_idempotent (db : DB) (gid : Int) (n : String) (rest : List String)
    (h : db.groups.any (fun r => r.1 == gid) = false) :
    insertMany db gid (n :: rest) = { db with groups := db.groups ++ [(gid, n)] } ∧
    (insertMany db gid (n :: rest)).groups.filter (fun r => r.1 == gid) = [(gid, n)] ∧
    ∀ name : String,
      upsertGroup (insertMany db gid (n :: rest)) gid name = insertMany db gid (n :: rest) := by
  have h1 : upsertGroup db gid n = { db with groups := db.groups ++ [(gid, n)] } := by
    simp [upsertGroup, h]
  have h2 : insertMany db gid (n :: rest) = upsertGroup db gid n := by
    show insertMany (upsertGroup db gid n) gid rest = upsertGroup db gid n
    exact insertMany_stable gid rest _ (upsertGroup_any_self db gid n)
  have hfilter : db.groups.filter (fun r => r.1 == gid) = [] := by
    have h' : ¬db.groups.any (fun r => r.1 == gid) = true := by simp [h]
    rw [List.any_eq_true] at h'
    push_neg at h'
    rw [List.filter_eq_nil_iff]
    exact h'
  refine ⟨h2.trans h1, ?_, ?_⟩
  · rw [h2, h1]
    simp [List.filter_append, hfilter]
  · intro name
    exact upsertGroup_stable _ gid name (by rw [h2]; exact upsertGroup_any_self db gid n)

/-- Witness for C5 on a concrete registry: three observations of group 1
leave the single row (1, "A") recorded by the first insertion. -/
theorem C5_witness :
    (insertMany ({} : DB) 1 ("A" :: ["B", "A"])).groups.filter (fun r => r.1 == 1) = [(1, "A")] ∧
    upsertGroup (insertMany ({} : DB) 1 ("A" :: ["B", "A"])) 1 "Z" =
      insertMany ({} : DB) 1 ("A" :: ["B", "A"]) :=
  ⟨(C5_upsertGroup_idempotent {} 1 "A" ["B", "A"] (by decide)).2.1,
   (C5_upsertGroup_idempotent {} 1 "A" ["B", "A"] (by decide)).2.2 "Z"⟩

/-! ### Claim C10 -/

theorem pyLower_empty_iff (s : String) : pyLower s = "" ↔ s = "" := by
  constructor
  · intro h
    apply String.ext
    have hd : (pyLower s).data = [] := by rw [h]
    have hmap : s.data.map Char.toLower = [] := hd
    have hnil : s.data = [] := List.map_eq_nil_iff.mp hmap
    simpa using hnil
  · intro h; rw [h]; rfl

/-- Claim C10: the banned-word list produced by loading the word source
never contains an empty string — blank and whitespace-only lines are
dropped and entries are the lower-cased stripped lines — so the
banned-word rule can only fire on a message whose lower-cased text
contains a non-empty configured word. -/
theorem C10_no_empty_banned_word (ls : List String) :
    (∀ w ∈ load_banned_words ls,
        w ≠ "" ∧ ∃ v ∈ ls, pyStrip v ≠ "" ∧ w = pyLower (pyStrip v)) ∧
    (∀ text : String, bannedHit (load_banned_words ls) text = true →
        ∃ w ∈ load_banned_words ls, w ≠ "" ∧ strContains (pyLower text) w = true) := by
  have key : ∀ w ∈ load_banned_words ls,
      w ≠ "" ∧ ∃ v ∈ ls, pyStrip v ≠ "" ∧ w = pyLower (pyStrip v) := by
    intro w hw
    unfold load_banned_words at hw
    rw [List.mem_map] at hw
    obtain ⟨v, hv, rfl⟩ := hw
    rw [List.mem_filter] at hv
    obtain ⟨hvls, hvne⟩ := hv
    have hne : pyStrip v ≠ "" := by
      intro hc; rw [hc] at hvne; simp at hvne
    exact ⟨fun hc => hne ((pyLower_empty_iff _).mp hc), v, hvls, hne, rfl⟩
  refine ⟨key, ?_⟩
  intro text h
  rw [bannedHit, List.any_eq_true] at h
  obtain ⟨w, hw, hcontains⟩ := h
  exact ⟨w, hw, (key w hw).1, hcontains⟩

/-- Witness for C10: the loaded word list [" SpAm "] fires on
"buy Spam now" through the non-empty configured word "spam". -/
theorem C10_witness :
    ∃ w ∈ load_banned_words [" SpAm "], w ≠ "" ∧ strContains (pyLower "buy Spam now") w = true :=
  (C10_no_empty_banned_word [" SpAm "]).2 "buy Spam now" (by decide)

/-! ### Claim C7 -/

/-- Claim C7: an invoker whose identity differs from the configured
administrator is rejected at the begin-broadcast entry point with a
refusal message, the conversation does not start, and user_data (the
session state) is left exactly as it was — no session comes into
existence. -/
theorem C7_nonadmin_no_session (adminId userId : Int) (ud : UserData)
    (h : userId ≠ adminId) :
    broadcast_entry adminId userId ud =
      { state := ConvState.END, ud := ud,
        replies := ["❌ This command is for admin only."] } := by
  have hb : (userId == adminId) = false := by simpa using h
  simp [broadcast_entry, hb]

/-- Witness for C7 at a concrete non-admin invoker. -/
theorem C7_witness :
    broadcast_entry 99 5 {} =
      { state := ConvState.END, ud := {},
        replies := ["❌ This command is for admin only."] } :=
  C7_nonadmin_no_session 99 5 {} (by decide)

/-! ### Claim C3 -/

/-- Claim C3: in the Confirming state (audience kind and payload present
in the session, scheduler available), exactly one dispatcher job is
enqueued if and only if the input text equals "confirm"
case-insensitively; every other input cancels the session — the reply is
the cancellation notice, the session keys are cleared, the conversation
ends and zero dispatch jobs are enqueued. -/
theorem C3_confirm_dispatch_iff (schedOk : Bool) (userId : Int) (ud : UserData)
    (text : Option String) (b : String) (pm : PyMessage)
    (hb : ud.broadcast_type = some b) (hm : ud.broadcast_message = some pm)
    (hs : schedOk = true) :
    ((broadcast_confirm schedOk userId ud text).jobs.length = 1 ↔ isConfirm text = true) ∧
    (isConfirm text = false →
      broadcast_confirm schedOk userId ud text =
        { state := ConvState.END, ud := clearBroadcastData ud, jobs := [],
          replies := ["❌ Broadcast canceled."] }) := by
  subst hs
  cases hC : isConfirm text with
  | false =>
    refine ⟨?_, fun _ => ?_⟩ <;> simp [broadcast_confirm, hC]
  | true =>
    refine ⟨?_, fun h => ?_⟩
    · simp [broadcast_confirm, hC, hb, hm]
    · exact absurd h (by decide)

/-- Witness for C3: a concrete Confirming session dispatches on the
mixed-case input "CoNfIrM". -/
theorem C3_witness :
    (broadcast_confirm true 7
        { broadcast_type := some "all_users",
          broadcast_message := some { text := some "hi" } }
        (some "CoNfIrM")).jobs.length = 1 :=
  (C3_confirm_dispatch_iff true 7
      { broadcast_type := some "all_users",
        broadcast_message := some { text := some "hi" } }
      (some "CoNfIrM") "all_users" { text := some "hi" } rfl rfl rfl).1.mpr (by decide)

/-! ### Claim C9 -/

/-- Counterexample to C9 as stated: when scheduler.add_job fails, the
failure notice is sent and the conversation ends, but the session fields
survive — broadcast_type is still bound after the terminal transition. -/
theorem C9_counterexample :
    (broadcast_confirm false 1
        { broadcast_type := some "all_groups",
          broadcast_message := some { text := some "hello groups" } }
        (some "confirm")).replies = ["❌ Failed to queue broadcast. Try again later."] ∧
    (broadcast_confirm false 1
        { broadcast_type := some "all_groups",
          broadcast_message := some { text := some "hello groups" } }
        (some "confirm")).state = ConvState.END ∧
    (broadcast_confirm false 1
        { broadcast_type := some "all_groups",
          broadcast_message := some { text := some "hello groups" } }
        (some "confirm")).ud.broadcast_type = some "all_groups" := by
  decide

/-- Claim C9 (amended): on the dispatch and cancellation terminal
outcomes all session fields are destroyed (and the conversation ends);
on a scheduling failure the failure notice ends the conversation but the
session fields are retained. -/
theorem C9_terminal_cleanup (schedOk : Bool) (userId : Int) (ud : UserData)
    (text : Option String)
    (h : isConfirm text = false ∨
         (schedOk = true ∧ ud.broadcast_type.isSome = true ∧ ud.broadcast_message.isSome = true)) :
    (broadcast_confirm schedOk userId ud text).ud = clearBroadcastData ud ∧
    (broadcast_confirm schedOk userId ud text).state = ConvState.END := by
  cases hC : isConfirm text with
  | false => constructor <;> simp [broadcast_confirm, hC]
  | true =>
    rcases h with h | ⟨hs, hb, hm⟩
    · rw [h] at hC; simp at hC
    · subst hs
      rw [Option.isSome_iff_exists] at hb hm
      obtain ⟨b, hb⟩ := hb
      obtain ⟨pm, hm⟩ := hm
      constructor <;> simp [broadcast_confirm, hC, hb, hm]

/-- Witness for C9 (amended): a cancelled concrete session is cleared. -/
theorem C9_witness :
    (broadcast_confirm true 1
        { broadcast_type := some "all_groups",
          broadcast_message := some ({ text := some "x" } : PyMessage) }
        (some "no")).ud =
      clearBroadcastData
        { broadcast_type := some "all_groups",
          broadcast_message := some ({ text := some "x" } : PyMessage) } :=
  (C9_terminal_cleanup true 1
      { broadcast_type := some "all_groups",
        broadcast_message := some ({ text := some "x" } : PyMessage) }
      (some "no") (Or.inl (by decide))).1

/-! ### Claim C1 -/

/-- A store in which user 7 opted in by starting a direct conversation
(recorded into bot_users) and user 5 merely posted in group 1 (recorded
into the users membership table). -/
def dbC1 : DB := upsertMembership (start_record {} 7 (some "alice") none none) 5 1 (some "bob")

/-- Claim C1 evaluated at the failing input: for the "all opted-in
users" audience the dispatcher resolves its target list from the
group-membership table (yielding [5]), not from the opted-in bot_users
table (whose distinct user ids are [7]); the two disagree. -/
theorem C1_all_users_ignores_opted_in :
    resolveTargets dbC1 "all_users" none = [5] ∧
    sqlDistinct (dbC1.bot_users.map (fun r => r.1)) = [7] ∧
    resolveTargets dbC1 "all_users" none ≠ sqlDistinct (dbC1.bot_users.map (fun r => r.1)) := by
  decide

/-! ### Claim C2 -/

/-- Moderation outcome projections of moderationSection depend on the
base accumulator only through the projected fields. -/
theorem moderationSection_base_proj (adminId : Int) (banned : List String)
    (uOk bOk : Bool) (m : Msg) (baseA baseB : Effects)
    (hd : baseA.deleteAttempts = baseB.deleteAttempts)
    (hw : baseA.warnings = baseB.warnings)
    (hr : baseA.reports = baseB.reports)
    (hf : baseA.firedReasons = baseB.firedReasons)
    (hdm : baseA.db.deleted_messages = baseB.db.deleted_messages) :
    (moderationSection adminId banned uOk bOk baseA m).deleteAttempts =
      (moderationSection adminId banned uOk bOk baseB m).deleteAttempts ∧
    (moderationSection adminId banned uOk bOk baseA m).warnings =
      (moderationSection adminId banned uOk bOk baseB m).warnings ∧
    (moderationSection adminId banned uOk bOk baseA m).reports =
      (moderationSection adminId banned uOk bOk baseB m).reports ∧
    (moderationSection adminId banned uOk bOk baseA m).firedReasons =
      (moderationSection adminId banned uOk bOk baseB m).firedReasons ∧
    (moderationSection adminId banned uOk bOk baseA m).db.deleted_messages =
      (moderationSection adminId banned uOk bOk baseB m).db.deleted_messages := by
  simp only [moderationSection, bannedSection]
  split_ifs <;> simp_all [log_event]

/-- moderationSection never touches the membership flag or the groups and
users tables. -/
theorem moderationSection_registry_invariant (adminId : Int) (banned : List String)
    (uOk bOk : Bool) (base : Effects) (m : Msg) :
    (moderationSection adminId banned uOk bOk base m).membershipUpsertRan =
      base.membershipUpsertRan ∧
    (moderationSection adminId banned uOk bOk base m).db.users = base.db.users ∧
    (moderationSection adminId banned uOk bOk base m).db.groups = base.db.groups := by
  simp only [moderationSection, bannedSection]
  split_ifs <;> simp [log_event]

/-- A non-admin group message that carries both a URL entity and a banned
substring. -/
def mC2 : Msg := { chatType := "group", chatId := 1, chatTitle := "G", userId := 5,
                   firstName := "Eve", text := some "visit spam site", entityTypes := ["url"] }

/-- Counterexample to C2 as stated for every inbound group message: when
the URL section's log_event raises a storage error (its success flag
false), the early return is skipped, the handler falls through to the
banned-word section, and the same message is acted on twice — two delete
attempts and two warnings. -/
theorem C2_counterexample :
    (message_handler 999 ["spam"] false true true false true {} mC2).firedReasons
      = ["URL", "BannedWord"] ∧
    (message_handler 999 ["spam"] false true true false true {} mC2).deleteAttempts = 2 ∧
    (message_handler 999 ["spam"] false true true false true {} mC2).warnings.length = 2 := by
  decide

/-- Claim C2 (amended): provided the URL section's moderation-log append
does not raise a storage error, every inbound message takes at most one
ACT path (at most one delete attempt, warning, admin report, fired rule
and appended log row), and a non-admin group message containing both a
URL entity and a banned substring fires only the URL rule: exactly one
delete, exactly one warning, exactly one admin report and exactly one
appended ModerationLogEntry. (If that log append fails, the banned-word
rule can additionally fire — see the counterexample.) -/
theorem C2_single_act_path (adminId : Int) (banned : List String) (bcast gOk mOk bOk : Bool)
    (db : DB) (m : Msg) :
    ((message_handler adminId banned bcast gOk mOk true bOk db m).deleteAttempts ≤ 1 ∧
     (message_handler adminId banned bcast gOk mOk true bOk db m).warnings.length ≤ 1 ∧
     (message_handler adminId banned bcast gOk mOk true bOk db m).reports.length ≤ 1 ∧
     (message_handler adminId banned bcast gOk mOk true bOk db m).firedReasons.length ≤ 1 ∧
     (message_handler adminId banned bcast gOk mOk true bOk db m).db.deleted_messages.length
       ≤ db.deleted_messages.length + 1) ∧
    ((m.chatType == "private") = false → bcast = false →
     m.entityTypes.any (fun t => t == "url") = true →
     bannedHit banned (m.text.getD "") = true →
     (m.userId == adminId) = false →
     (message_handler adminId banned bcast gOk mOk true bOk db m).firedReasons = ["URL"] ∧
     (message_handler adminId banned bcast gOk mOk true bOk db m).deleteAttempts = 1 ∧
     (message_handler adminId banned bcast gOk mOk true bOk db m).warnings
       = [urlWarning m.firstName] ∧
     (message_handler adminId banned bcast gOk mOk true bOk db m).reports.length = 1 ∧
     (message_handler adminId banned bcast gOk mOk true bOk db m).db.deleted_messages.length
       = db.deleted_messages.length + 1) := by
  simp only [message_handler, moderationSection, bannedSection]
  split_ifs <;>
    simp_all [log_event, upsertGroup_deleted, upsertMembership_deleted]

/-- Witness for C2 (amended) at a concrete message carrying both a URL
entity and a banned substring: only the URL rule fires, once. -/
theorem C2_witness :
    (message_handler 999 ["spam"] false true true true true {} mC2).firedReasons = ["URL"] ∧
    (message_handler 999 ["spam"] false true true true true {} mC2).deleteAttempts = 1 := by
  have h := (C2_single_act_path 999 ["spam"] false true true true {} mC2).2
    (by decide) rfl (by decide) (by decide) (by decide)
  exact ⟨h.1, h.2.1⟩

/-! ### Claim C6 -/

/-- A non-admin group message containing a banned word and no URL. -/
def mC6 : Msg := { chatType := "group", chatId := 2, chatTitle := "H", userId := 6,
                   firstName := "Mallory", text := some "get free spamword here",
                   entityTypes := [] }

/-- Counterexample to C6 as stated: when the group upsert fails, the
shared try block skips the membership upsert (it is not executed and the
users table is untouched), even though the moderation decision and its
actions still execute. -/
theorem C6_counterexample :
    (message_handler 999 ["spamword"] false false true true true {} mC6).groupUpsertRan
      = true ∧
    (message_handler 999 ["spamword"] false false true true true {} mC6).membershipUpsertRan
      = false ∧
    (message_handler 999 ["spamword"] false false true true true {} mC6).firedReasons
      = ["BannedWord"] ∧
    (message_handler 999 ["spamword"] false false true true true {} mC6).deleteAttempts = 1 ∧
    (message_handler 999 ["spamword"] false false true true true {} mC6).db.users = [] := by
  decide

/-- Claim C6 (amended): registry write failures never propagate — the
moderation decision and all its actions (delete attempts, warnings,
reports, fired rules, appended log rows) are identical to the run in
which both upserts succeed; however the two upserts share one exception
scope, so when the group upsert fails the membership upsert is not
executed and both tables are left untouched. -/
theorem C6_storage_failure_isolated (adminId : Int) (banned : List String)
    (bcast gOk mOk uOk bOk : Bool) (db : DB) (m : Msg) :
    ((message_handler adminId banned bcast gOk mOk uOk bOk db m).deleteAttempts =
       (message_handler adminId banned bcast true true uOk bOk db m).deleteAttempts ∧
     (message_handler adminId banned bcast gOk mOk uOk bOk db m).warnings =
       (message_handler adminId banned bcast true true uOk bOk db m).warnings ∧
     (message_handler adminId banned bcast gOk mOk uOk bOk db m).reports =
       (message_handler adminId banned bcast true true uOk bOk db m).reports ∧
     (message_handler adminId banned bcast gOk mOk uOk bOk db m).firedReasons =
       (message_handler adminId banned bcast true true uOk bOk db m).firedReasons ∧
     (message_handler adminId banned bcast gOk mOk uOk bOk db m).db.deleted_messages =
       (message_handler adminId banned bcast true true uOk bOk db m).db.deleted_messages) ∧
    ((message_handler adminId banned bcast false mOk uOk bOk db m).membershipUpsertRan
       = false ∧
     (message_handler adminId banned bcast false mOk uOk bOk db m).db.users = db.users ∧
     (message_handler adminId banned bcast false mOk uOk bOk db m).db.groups = db.groups) := by
  constructor
  · simp only [message_handler]
    split_ifs <;>
      first
        | exact ⟨rfl, rfl, rfl, rfl, rfl⟩
        | · apply moderationSection_base_proj <;>
              simp [upsertGroup_deleted, upsertMembership_deleted]
  · simp only [message_handler]
    split_ifs <;>
      first
        | exact ⟨rfl, rfl, rfl⟩
        | · refine ⟨?_, ?_, ?_⟩ <;>
              simp_all [moderationSection_registry_invariant]

/-! ### Claim C4 -/

/-- Counterexample to C4 as stated for every run: over two known groups,
when the first delivery fails and the failed_deliveries INSERT recording
it raises a storage error, the exception escapes the per-target try into
the job-level except — only one of the two sends is attempted and the
crash report replaces the summary, so no success+failure accounting is
reported at all. -/
theorem C4_counterexample :
    ({ groups := [(1, "A"), (2, "B")] } : DB).groups.length = 2 ∧
    (run_broadcast_job { groups := [(1, "A"), (2, "B")] } "all_groups" none
        (fun _ => Outcome.unauthorized) true (fun t => !(t == 1))).attempts = [1] ∧
    (run_broadcast_job { groups := [(1, "A"), (2, "B")] } "all_groups" none
        (fun _ => Outcome.unauthorized) true (fun t => !(t == 1))).report = none := by
  decide

/-- Claim C4 (amended): provided the audience SELECT and the in-loop
failed_deliveries INSERTs raise no storage error — in particular in every
run in which all deliveries succeed — a broadcast run over the "all
groups" audience with N known groups attempts exactly N sends (one per
group id, in table order) and produces a summary with total = N,
success_count + failure_count = N, and a success rate of
success/total×100 (0 when the target list is empty). When such a storage
error does occur it escapes to the job-level except, the remaining
targets are not attempted, and a crash report replaces the summary. -/
theorem C4_all_groups_counts (db : DB) (oc : Int → Outcome) (selOk : Bool)
    (insOk : Int → Bool) (hsel : selOk = true) (hins : ∀ t, insOk t = true) :
    (run_broadcast_job db "all_groups" none oc selOk insOk).attempts
      = db.groups.map (fun r => r.1) ∧
    (run_broadcast_job db "all_groups" none oc selOk insOk).report.isSome = true ∧
    ∀ rep : BroadcastReport,
      (run_broadcast_job db "all_groups" none oc selOk insOk).report = some rep →
      rep.total = db.groups.length ∧
      rep.success + rep.fail = db.groups.length ∧
      rep.successRate =
        (if db.groups.length = 0 then (0 : ℚ)
         else (rep.success : ℚ) / (db.groups.length : ℚ) * 100) := by
  subst hsel
  have hres : resolveTargets db "all_groups" none = db.groups.map (fun r => r.1) := rfl
  obtain ⟨ha, hb, hc⟩ := runTargets_ok oc insOk hins (db.groups.map (fun r => r.1))
  refine ⟨?_, ?_, ?_⟩
  · simp [run_broadcast_job, hres, ha]
  · simp [run_broadcast_job, hres, hb]
  · intro rep hrep
    simp [run_broadcast_job, hres, hb] at hrep
    subst hrep
    refine ⟨by simp, by simpa using hc, ?_⟩
    by_cases h : db.groups = []
    · simp [h]
    · have hlen : ¬db.groups.length = 0 := by simpa [List.length_eq_zero] using h
      simp [h, hlen]

/-- Witness for C4 (amended): two groups, one delivery rejected, no
storage failures — both sends attempted, summary produced with
success + fail = 2. -/
theorem C4_witness :
    (run_broadcast_job { groups := [(1, "A"), (2, "B")] } "all_groups" none
        (fun t => if t == 1 then Outcome.unauthorized else Outcome.success) true
        (fun _ => true)).attempts = [1, 2] ∧
    ∃ rep : BroadcastReport,
      (run_broadcast_job { groups := [(1, "A"), (2, "B")] } "all_groups" none
          (fun t => if t == 1 then Outcome.unauthorized else Outcome.success) true
          (fun _ => true)).report = some rep ∧
      rep.success + rep.fail = 2 := by
  have h := C4_all_groups_counts { groups := [(1, "A"), (2, "B")] }
      (fun t => if t == 1 then Outcome.unauthorized else Outcome.success) true
      (fun _ => true) rfl (fun _ => rfl)
  obtain ⟨h1, h2, h3⟩ := h
  obtain ⟨rep, hrep⟩ := Option.isSome_iff_exists.mp h2
  exact ⟨by simpa using h1, rep, hrep, by simpa using (h3 rep hrep).2.1⟩

/-! ### Claim C8 -/

/-- The registry of the C8 scenario: a 3-group snapshot. -/
def dbC8 : DB := { groups := [(10, "A"), (20, "B"), (30, "C")] }

/-- Session after the admin selects "specific group" (choice "3"). -/
def udC8a : UserData := (broadcast_type_handler dbC8 {} "3").ud

/-- Session after the admin supplies the 1-based index "2". -/
def udC8b : UserData := (broadcast_message dbC8 udC8a { text := some "2" }).ud

/-- Session after the admin supplies the payload "Hello". -/
def udC8c : UserData := (broadcast_message dbC8 udC8b { text := some "Hello" }).ud

/-- Claim C8: in the group-selection state the input is a 1-based index
into the snapshot bound at audience selection — non-numeric or
out-of-range input re-prompts in the same state with the session
retained, and a valid index binds selected_group to the snapshot element
at that position; scenario: against the 3-group snapshot, input "2"
binds the snapshot's second group (20, "B"), the payload "Hello" is
stored verbatim, "confirm" enqueues exactly one dispatcher job carrying
that group's id, and the dispatch run makes exactly one send attempt
targeting id 20, whatever the delivery outcomes and storage-failure
pattern (no audience SELECT runs for the single-group audience, and the
one send precedes any failed_deliveries INSERT). -/
theorem C8_group_index_selection (db : DB) (ud : UserData) (m : PyMessage)
    (gs : List (Int × String))
    (h1 : ud.broadcast_type = some "specific_group")
    (h2 : ud.selected_group = none)
    (h3 : ud.groups_list = some gs) :
    ((parsePyInt (m.text.getD "") = none →
        (broadcast_message db ud m).state = ConvState.BMESSAGE ∧
        (broadcast_message db ud m).ud = ud) ∧
     (∀ n : Int, parsePyInt (m.text.getD "") = some n →
        ¬(0 ≤ n - 1 ∧ n - 1 < (gs.length : Int)) →
        (broadcast_message db ud m).state = ConvState.BMESSAGE ∧
        (broadcast_message db ud m).ud = ud) ∧
     (∀ n : Int, parsePyInt (m.text.getD "") = some n →
        0 ≤ n - 1 → n - 1 < (gs.length : Int) →
        (broadcast_message db ud m).state = ConvState.BMESSAGE ∧
        (broadcast_message db ud m).ud =
          { ud with selected_group := some (gs.getD (n - 1).toNat (0, "")) })) ∧
    (udC8a.broadcast_type = some "specific_group" ∧
     udC8a.groups_list = some [(10, "A"), (20, "B"), (30, "C")] ∧
     udC8a.selected_group = none ∧
     udC8b.selected_group = some (20, "B") ∧
     udC8c.broadcast_message = some ({ text := some "Hello" } : PyMessage) ∧
     (broadcast_confirm true 99 udC8c (some "confirm")).jobs =
       [("specific_group", MsgData.textD "Hello", some 20, 99)] ∧
     ∀ (oc : Int → Outcome) (selOk : Bool) (insOk : Int → Bool),
       (run_broadcast_job dbC8 "specific_group" (some 20) oc selOk insOk).attempts
         = [20]) := by
  constructor
  · refine ⟨?_, ?_, ?_⟩
    · intro hp
      constructor <;> simp [broadcast_message, h1, h2, hp]
    · intro n hp hrange
      have hrange' : ¬(1 ≤ n ∧ n - 1 < (gs.length : Int)) := by
        intro hc; exact hrange ⟨by omega, hc.2⟩
      constructor <;> simp [broadcast_message, h1, h2, h3, hp, hrange']
    · intro n hp hlo hhi
      have hcond : 1 ≤ n ∧ n - 1 < (gs.length : Int) := ⟨by omega, hhi⟩
      constructor <;> simp [broadcast_message, h1, h2, h3, hp, hcond]
  · refine ⟨by decide, by decide, by decide, by decide, by decide, by decide, ?_⟩
    intro oc selOk insOk
    have hguard :
        ((("specific_group" == "all_users") || ("specific_group" == "all_groups"))
          && !selOk) = false := by
      cases selOk <;> rfl
    have hres : resolveTargets dbC8 "specific_group" (some 20) = [20] := rfl
    simpa [run_broadcast_job, hguard, hres] using runTargets_single oc insOk 20

/-- Witness for C8: supplying index "2" against the snapshot binds the
snapshot's second group. -/
theorem C8_witness :
    (broadcast_message dbC8 udC8a ({ text := some "2" } : PyMessage)).ud =
      { udC8a with
        selected_group :=
          some ([(10, "A"), (20, "B"), (30, "C")].getD ((2 : Int) - 1).toNat (0, "")) } :=
  ((C8_group_index_selection dbC8 udC8a ({ text := some "2" } : PyMessage)
      [(10, "A"), (20, "B"), (30, "C")] (by decide) (by decide) (by decide)).1.2.2
    2 (by decide) (by decide) (by decide)).2

end Bot
